import Mathlib

/-!
Verification of the vote-aggregation data layer of the SondageWebApp
repository (an Express + SQLite voting application).

The SQLite-backed state (src/db.js) is embedded as a record `DB` holding the
`jeux` table (rows `(id, nom)`, with `nom TEXT UNIQUE` and
`id INTEGER PRIMARY KEY AUTOINCREMENT`) and the `votes` table (rows
`(user_id, jeu_id)` with `UNIQUE(user_id, jeu_id)`).  Each exported db.js
function and each relevant Express route handler of src/app.js (and of the
route-handler variants kept under src/unnamed/) is translated into a pure
Lean function on `DB`.

String handling: the only normalisation the application performs is
JavaScript `jeu.trim().toLowerCase()` (src/app.js line 247).  Both JS
operations are embedded character-by-character below; `toLowerCase` is
modelled by its behaviour on the ASCII range (all concrete inputs used in
the development are ASCII).
-/

namespace Sondage

/-- ASCII lower-casing of one character: the effective behaviour of
JavaScript `toLowerCase()` on the ASCII range. -/
def lowerChar (c : Char) : Char :=
  if 65 ≤ c.toNat ∧ c.toNat ≤ 90 then Char.ofNat (c.toNat + 32) else c

/-- Embedding of JavaScript `String.prototype.toLowerCase()` (ASCII range). -/
def lowerString (s : String) : String := ⟨s.data.map lowerChar⟩

/-- Whitespace test used by JavaScript `trim()` (ASCII whitespace). -/
def isWS (c : Char) : Bool := c = ' ' || c = '\t' || c = '\n' || c = '\r'

/-- Embedding of JavaScript `String.prototype.trim()`: drop whitespace from
both ends of the string. -/
def trimString (s : String) : String :=
  ⟨((s.data.dropWhile isWS).reverse.dropWhile isWS).reverse⟩

/-- The normalisation applied by the vote route, src/app.js line 247:
`const jeuNormalise = jeu.trim().toLowerCase();`. -/
def normalizeName (s : String) : String := lowerString (trimString s)

/-- HTTP outcome of a route handler, abstracting the JSON responses:
`success` = 200 with a success message, `badRequest` = 400,
`notFound` = 404, `serverError` = 500. -/
inductive Outcome where
  | success
  | badRequest
  | notFound
  | serverError
deriving DecidableEq, Repr

/-- The SQLite database state of src/db.js.

* `jeux` — rows of `CREATE TABLE jeux (id INTEGER PRIMARY KEY AUTOINCREMENT,
  nom TEXT UNIQUE)`, in insertion order.
* `nextId` — the next AUTOINCREMENT value for `jeux` (SQLite starts at 1).
* `votes` — rows of `CREATE TABLE votes (user_id TEXT, jeu_id INTEGER,
  UNIQUE(user_id, jeu_id))`, in insertion order; the `UNIQUE` constraint
  is maintained by `insertVote` (INSERT OR IGNORE), see `Votes_Nodup`.

Foreign keys are declared in the schema but SQLite does not enforce them
unless `PRAGMA foreign_keys = ON` is issued, which db.js never does; the
embedding therefore performs no foreign-key checking either. -/
structure DB where
  jeux : List (Nat × String)
  nextId : Nat
  votes : List (String × Nat)
deriving DecidableEq, Repr

/-- The freshly created database: empty tables, AUTOINCREMENT at 1. -/
def initDB : DB := ⟨[], 1, []⟩

/-- Row lookup `SELECT * FROM jeux WHERE nom = ?` (exact string equality,
as in `addOrGetJeu` and `getJeuIdByName`, src/db.js lines 130 and 151). -/
def findJeu (nom : String) (db : DB) : Option (Nat × String) :=
  db.jeux.find? (fun g => g.2 == nom)

/-- db.js `getJeuIdByName` (lines 149-159): `SELECT id FROM jeux WHERE
nom = ?`, resolving to the id when the row exists and to `null` (here
`none`) otherwise. -/
def getJeuIdByName (nom : String) (db : DB) : Option Nat :=
  (findJeu nom db).map (·.1)

/-- db.js `addOrGetJeu` (lines 128-147): look the name up by exact equality;
if present return its id, otherwise `INSERT INTO jeux(nom) VALUES(?)` and
return `this.lastID` (the fresh AUTOINCREMENT id). -/
def addOrGetJeu (nom : String) (db : DB) : Nat × DB :=
  match findJeu nom db with
  | some g => (g.1, db)
  | none =>
      (db.nextId,
       { db with jeux := db.jeux ++ [(db.nextId, nom)], nextId := db.nextId + 1 })

/-- db.js `insertVote` (lines 174-184): `INSERT OR IGNORE INTO
votes(user_id, jeu_id) VALUES(?, ?)` — the `UNIQUE(user_id, jeu_id)`
constraint makes the insert a no-op when the row already exists. -/
def insertVote (u : String) (j : Nat) (db : DB) : DB :=
  if (u, j) ∈ db.votes then db
  else { db with votes := db.votes ++ [(u, j)] }

/-- db.js `deleteVoteForUser` (lines 162-172): `DELETE FROM votes WHERE
user_id = ? AND jeu_id = ?`; resolves with no error whether or not a row
was deleted. -/
def deleteVoteForUser (u : String) (j : Nat) (db : DB) : DB :=
  { db with votes := db.votes.filter (fun p => !(p.1 == u && p.2 == j)) }

/-- The call `db.deleteVoteForUser(userId, jeuId)` where `jeuId` may be
`null` (as in the src/unnamed/part_001 remove-game handler, which skips the
`null` check): SQL `jeu_id = NULL` is never true, so a `null` id deletes
no row and still resolves with a success. -/
def deleteVoteForUserOpt (u : String) (j : Option Nat) (db : DB) : DB :=
  match j with
  | none => db
  | some jid => deleteVoteForUser u jid db

/-- Number of `votes` rows for game id `j` — this is the value
`COUNT(v.user_id)` computes for the group of game `j` in both statistics
queries (LEFT JOIN produces one row per vote, and a single all-NULL row,
counted as 0, for a game with no votes). -/
def votesFor (db : DB) (j : Nat) : Nat :=
  (db.votes.filter (fun p => p.2 == j)).length

/-- Number of distinct users whose membership set contains game `j`
(the specification-side reading of the vote counter). -/
def distinctVoters (db : DB) (j : Nat) : Nat :=
  (((db.votes.filter (fun p => p.2 == j)).map (·.1)).dedup).length

/-- One row of the statistics result set for the game row `g`:
`(nom, COUNT(v.user_id))`. -/
def statEntry (db : DB) (g : Nat × String) : String × Nat :=
  (g.2, votesFor db g.1)

/-- Insertion step of a sort by descending vote count, modelling
`ORDER BY votes DESC` (tie order among equal counts is not part of the
contract). -/
def insertDesc (x : String × Nat) : List (String × Nat) → List (String × Nat)
  | [] => [x]
  | y :: ys => if y.2 ≤ x.2 then x :: y :: ys else y :: insertDesc x ys

/-- Sort by descending vote count, modelling `ORDER BY votes DESC`. -/
def sortVotesDesc : List (String × Nat) → List (String × Nat)
  | [] => []
  | x :: xs => insertDesc x (sortVotesDesc xs)

/-- db.js `getGlobalStatistics` (lines 84-99): `SELECT j.nom,
COUNT(v.user_id) as votes FROM jeux j LEFT JOIN votes v ON j.id = v.jeu_id
GROUP BY j.nom HAVING COUNT(v.user_id) > 0 ORDER BY votes DESC`.  Because
`nom` is `UNIQUE` in the schema, grouping by `nom` is grouping by game
row, so the result is one `statEntry` per game, kept when its count is
positive, sorted by descending count. -/
def getGlobalStatistics (db : DB) : List (String × Nat) :=
  sortVotesDesc ((db.jeux.map (statEntry db)).filter (fun e => 0 < e.2))

/-- db.js `getStatistiques` (lines 187-204): the same query without the
`HAVING` clause — every game appears, zero-vote games included. -/
def getStatistiques (db : DB) : List (String × Nat) :=
  sortVotesDesc (db.jeux.map (statEntry db))

/-! ### Route handlers (src/app.js; variants under src/unnamed/)

A request body field that is absent, or of the wrong JSON type, is
modelled by `none`. -/

/-- The POST /api/vote handler (src/app.js lines 238-258, identical in all
three src/unnamed variants).  A missing or non-array `jeux` field is
rejected with 400.  Otherwise the handler first awaits
`db.deleteVotesForUser(req.user.id)` — but db.js exports no function of
that name, so this call raises `TypeError: db.deleteVotesForUser is not a
function` before any database mutation; the `catch` block answers 500.
Consequently every well-formed list input yields a 500 response and an
unchanged database. -/
def apiVote (_u : String) (body : Option (List String)) (db : DB) : Outcome × DB :=
  match body with
  | none => (.badRequest, db)
  | some _ => (.serverError, db)

/-- Modelled from the spec: `deleteVotesForUser` — the bulk deletion of all
of one user's votes that every app.js variant calls at the start of the
POST /api/vote handler — is missing from db.js's exports.  The spec
describes its intent as "clearing all of the user's prior votes", i.e.
`DELETE FROM votes WHERE user_id = ?`. -/
def deleteVotesForUser (u : String) (db : DB) : DB :=
  { db with votes := db.votes.filter (fun p => !(p.1 == u)) }

/-- One iteration of the POST /api/vote loop (src/app.js lines 246-252):
normalise the raw name; skip it when the result is empty (`if
(jeuNormalise)`), otherwise register it with `addOrGetJeu` and record the
vote with `insertVote`. -/
def voteLoopStep (u : String) (db : DB) (jeu : String) : DB :=
  let n := normalizeName jeu
  if n = "" then db
  else
    let r := addOrGetJeu n db
    insertVote u r.1 r.2

/-- The POST /api/vote handler as intended (src/app.js lines 238-258 with
the missing `deleteVotesForUser` supplied by its spec model): clear the
user's votes, then run the registration loop over the submitted list. -/
def apiVoteIntended (u : String) (body : Option (List String)) (db : DB) :
    Outcome × DB :=
  match body with
  | none => (.badRequest, db)
  | some l => (.success, l.foldl (voteLoopStep u) (deleteVotesForUser u db))

/-- The POST /api/ajouter-jeu handler (src/app.js lines 261-274): reject a
missing or empty (JS-falsy) `jeu` field with 400; otherwise pass the raw
name verbatim — no trim, no lower-casing — to `addOrGetJeu` and record the
vote. -/
def apiAjouterJeu (u : String) (body : Option String) (db : DB) : Outcome × DB :=
  match body with
  | none => (.badRequest, db)
  | some s =>
      if s = "" then (.badRequest, db)
      else
        let r := addOrGetJeu s db
        (.success, insertVote u r.1 r.2)

/-- The POST /api/supprimer-jeu handler of src/app.js (lines 277-293):
reject a missing/empty name with 400; resolve the raw name with
`getJeuIdByName`; answer 404 (`Jeu non trouvé.`) when it does not resolve;
otherwise delete the vote row and answer success. -/
def apiSupprimerJeu (u : String) (body : Option String) (db : DB) : Outcome × DB :=
  match body with
  | none => (.badRequest, db)
  | some s =>
      if s = "" then (.badRequest, db)
      else
        match getJeuIdByName s db with
        | none => (.notFound, db)
        | some jid => (.success, deleteVoteForUser u jid db)

/-- The POST /api/supprimer-jeu handler of the src/unnamed/part_001 variant
(lines 214-227): same as `apiSupprimerJeu` but WITHOUT the 404 check — the
possibly-`null` id goes straight into `deleteVoteForUser`, where
`jeu_id = NULL` matches no row, and the handler answers success either
way. -/
def apiSupprimerJeuVariant (u : String) (body : Option String) (db : DB) :
    Outcome × DB :=
  match body with
  | none => (.badRequest, db)
  | some s =>
      if s = "" then (.badRequest, db)
      else (.success, deleteVoteForUserOpt u (getJeuIdByName s db) db)

/-- The DELETE /api/vote/:jeuId handler (src/app.js lines 296-305): no
existence check of any kind — it always calls `deleteVoteForUser` and
always answers with the success message. -/
def apiDeleteVote (u : String) (j : Nat) (db : DB) : Outcome × DB :=
  (.success, deleteVoteForUser u j db)

/-- The vote-path game registration (spec's `resolveOrCreate`): the raw
name is normalised at src/app.js line 247 and the result is passed to
db.js `addOrGetJeu`. -/
def resolveOrCreate (raw : String) (db : DB) : Nat × DB :=
  addOrGetJeu (normalizeName raw) db

/-! ### Operation sequences over the vote store -/

/-- One caller-visible vote-store operation: `add` = db.js `insertVote`,
`remove` = db.js `deleteVoteForUser`, `replaceAll` = the POST /api/vote
route as shipped, `replaceAllIntended` = the same route with the missing
`deleteVotesForUser` supplied by its spec model. -/
inductive Op where
  | add (u : String) (j : Nat)
  | remove (u : String) (j : Nat)
  | replaceAll (u : String) (body : Option (List String))
  | replaceAllIntended (u : String) (body : Option (List String))

/-- Apply one operation to the database. -/
def applyOp (db : DB) : Op → DB
  | .add u j => insertVote u j db
  | .remove u j => deleteVoteForUser u j db
  | .replaceAll u body => (apiVote u body db).2
  | .replaceAllIntended u body => (apiVoteIntended u body db).2

/-- Run a sequence of operations from a starting state. -/
def runOps (db : DB) (ops : List Op) : DB := ops.foldl applyOp db

/-- A small reachable state: the game "chess" is registered with id 1 and
user "u" has already voted for it (the state produced by
`apiAjouterJeu "u" (some "chess") initDB`). -/
def dbChess : DB := ⟨[(1, "chess")], 2, [("u", 1)]⟩

/-- A small reachable state with three registered games, of which "a" has
two votes, "b" one, and "c" none. -/
def dbStats : DB := ⟨[(1, "a"), (2, "b"), (3, "c")], 4, [("u", 1), ("v", 1), ("u", 2)]⟩

/-! ### Structural lemmas about the db.js operations -/

theorem addOrGetJeu_found {nom : String} {db : DB} {g : Nat × String}
    (h : findJeu nom db = some g) : addOrGetJeu nom db = (g.1, db) := by
  unfold addOrGetJeu
  rw [h]

theorem addOrGetJeu_fresh {nom : String} {db : DB}
    (h : findJeu nom db = none) :
    addOrGetJeu nom db =
      (db.nextId,
       { db with jeux := db.jeux ++ [(db.nextId, nom)], nextId := db.nextId + 1 }) := by
  unfold addOrGetJeu
  rw [h]

theorem addOrGetJeu_votes (nom : String) (db : DB) :
    (addOrGetJeu nom db).2.votes = db.votes := by
  unfold addOrGetJeu
  cases h : findJeu nom db <;> rfl

theorem insertVote_jeux (u : String) (j : Nat) (db : DB) :
    (insertVote u j db).jeux = db.jeux := by
  unfold insertVote
  split <;> rfl

theorem insertVote_of_mem {u : String} {j : Nat} {db : DB}
    (h : (u, j) ∈ db.votes) : insertVote u j db = db := by
  unfold insertVote
  rw [if_pos h]

theorem insertVote_of_not_mem {u : String} {j : Nat} {db : DB}
    (h : (u, j) ∉ db.votes) :
    insertVote u j db = { db with votes := db.votes ++ [(u, j)] } := by
  unfold insertVote
  rw [if_neg h]

theorem insertVote_nextId (u : String) (j : Nat) (db : DB) :
    (insertVote u j db).nextId = db.nextId := by
  unfold insertVote
  split <;> rfl

theorem deleteVoteForUser_jeux (u : String) (j : Nat) (db : DB) :
    (deleteVoteForUser u j db).jeux = db.jeux := rfl

theorem deleteVotesForUser_jeux (u : String) (db : DB) :
    (deleteVotesForUser u db).jeux = db.jeux := rfl

theorem findJeu_addOrGetJeu_fresh {nom : String} {db : DB}
    (h : findJeu nom db = none) :
    findJeu nom (addOrGetJeu nom db).2 = some (db.nextId, nom) := by
  rw [addOrGetJeu_fresh h]
  unfold findJeu at h ⊢
  simp only [List.find?_append, h, Option.none_or]
  simp [List.find?]

/-- A vote row `(u, j')` with `j' ≠ j` never changes the count of game `j`. -/
theorem votesFor_append_other {db : DB} {u : String} {j j' : Nat} (h : j' ≠ j) :
    votesFor { db with votes := db.votes ++ [(u, j')] } j = votesFor db j := by
  unfold votesFor
  simp [List.filter_append, List.filter_cons, beq_iff_eq, h]

theorem votesFor_append_same (db : DB) (u : String) (j : Nat) :
    votesFor { db with votes := db.votes ++ [(u, j)] } j = votesFor db j + 1 := by
  unfold votesFor
  simp [List.filter_append, List.filter]

/-- Voting for a different game never changes the count of game `j`. -/
theorem votesFor_insertVote_other {u : String} {j j' : Nat} {db : DB}
    (h : j' ≠ j) : votesFor (insertVote u j' db) j = votesFor db j := by
  unfold insertVote
  split
  · rfl
  · exact votesFor_append_other h

/-! ### The UNIQUE(user_id, jeu_id) invariant: no duplicate vote rows -/

theorem votes_nodup_insertVote {db : DB} (h : db.votes.Nodup)
    (u : String) (j : Nat) : (insertVote u j db).votes.Nodup := by
  unfold insertVote
  split
  · exact h
  · next hmem =>
      simp only [List.nodup_append, List.disjoint_singleton]
      exact ⟨h, List.nodup_singleton _, hmem⟩

theorem votes_nodup_deleteVoteForUser {db : DB} (h : db.votes.Nodup)
    (u : String) (j : Nat) : (deleteVoteForUser u j db).votes.Nodup :=
  h.filter _

theorem votes_nodup_deleteVotesForUser {db : DB} (h : db.votes.Nodup)
    (u : String) : (deleteVotesForUser u db).votes.Nodup :=
  h.filter _

theorem votes_nodup_addOrGetJeu {db : DB} (h : db.votes.Nodup)
    (nom : String) : (addOrGetJeu nom db).2.votes.Nodup := by
  rw [addOrGetJeu_votes]
  exact h

theorem votes_nodup_voteLoopStep {db : DB} (h : db.votes.Nodup)
    (u jeu : String) : (voteLoopStep u db jeu).votes.Nodup := by
  simp only [voteLoopStep]
  split
  · exact h
  · exact votes_nodup_insertVote (votes_nodup_addOrGetJeu h _) _ _

theorem votes_nodup_foldl_voteLoopStep {db : DB} (h : db.votes.Nodup)
    (u : String) (l : List String) :
    (l.foldl (voteLoopStep u) db).votes.Nodup := by
  induction l generalizing db with
  | nil => exact h
  | cons jeu rest ih => exact ih (votes_nodup_voteLoopStep h u jeu)

theorem votes_nodup_applyOp {db : DB} (h : db.votes.Nodup) (op : Op) :
    (applyOp db op).votes.Nodup := by
  cases op with
  | add u j => exact votes_nodup_insertVote h u j
  | remove u j => exact votes_nodup_deleteVoteForUser h u j
  | replaceAll u body => cases body <;> exact h
  | replaceAllIntended u body =>
      cases body with
      | none => exact h
      | some l =>
          exact votes_nodup_foldl_voteLoopStep
            (votes_nodup_deleteVotesForUser h u) u l

theorem votes_nodup_runOps (ops : List Op) {db : DB} (h : db.votes.Nodup) :
    (runOps db ops).votes.Nodup := by
  induction ops generalizing db with
  | nil => exact h
  | cons op rest ih => exact ih (votes_nodup_applyOp h op)

/-- On a state whose vote rows are pairwise distinct (which the
`UNIQUE(user_id, jeu_id)` constraint guarantees), the row count for game
`j` is exactly the number of distinct users voting for `j`. -/
theorem votesFor_eq_distinctVoters {db : DB} (h : db.votes.Nodup) (j : Nat) :
    votesFor db j = distinctVoters db j := by
  unfold votesFor distinctVoters
  have hn : (db.votes.filter (fun p => p.2 == j)).Nodup := h.filter _
  have hm : ((db.votes.filter (fun p => p.2 == j)).map (·.1)).Nodup := by
    refine List.Nodup.map_on ?_ hn
    intro x hx y hy hxy
    have hx2 : x.2 = j := by simpa using (List.mem_filter.1 hx).2
    have hy2 : y.2 = j := by simpa using (List.mem_filter.1 hy).2
    exact Prod.ext hxy (hx2.trans hy2.symm)
  rw [List.dedup_eq_self.2 hm, List.length_map]

/-! ### Lemmas about the descending sort used by the statistics queries -/

theorem insertDesc_perm (x : String × Nat) (l : List (String × Nat)) :
    (insertDesc x l).Perm (x :: l) := by
  induction l with
  | nil => exact List.Perm.refl _
  | cons y ys ih =>
      unfold insertDesc
      split
      · exact List.Perm.refl _
      · exact (ih.cons y).trans (List.Perm.swap x y ys)

theorem insertDesc_sorted (x : String × Nat) {l : List (String × Nat)}
    (h : l.Pairwise (fun a b => b.2 ≤ a.2)) :
    (insertDesc x l).Pairwise (fun a b => b.2 ≤ a.2) := by
  induction l with
  | nil => simp [insertDesc]
  | cons y ys ih =>
      rw [List.pairwise_cons] at h
      obtain ⟨hy, hys⟩ := h
      unfold insertDesc
      split
      · next hle =>
          refine List.pairwise_cons.2 ⟨?_, List.pairwise_cons.2 ⟨hy, hys⟩⟩
          intro z hz
          rcases List.mem_cons.1 hz with rfl | hz'
          · exact hle
          · exact le_trans (hy z hz') hle
      · next hgt =>
          refine List.pairwise_cons.2 ⟨?_, ih hys⟩
          intro z hz
          rcases List.mem_cons.1 ((insertDesc_perm x ys).mem_iff.1 hz) with rfl | hz'
          · exact le_of_not_le hgt
          · exact hy z hz'

theorem sortVotesDesc_perm (l : List (String × Nat)) :
    (sortVotesDesc l).Perm l := by
  induction l with
  | nil => exact List.Perm.refl _
  | cons x xs ih => exact (insertDesc_perm x (sortVotesDesc xs)).trans (ih.cons x)

theorem sortVotesDesc_sorted (l : List (String × Nat)) :
    (sortVotesDesc l).Pairwise (fun a b => b.2 ≤ a.2) := by
  induction l with
  | nil => simp [sortVotesDesc]
  | cons x xs ih => exact insertDesc_sorted x ih

/-! ### Lemmas about game names in the registry -/

theorem names_addOrGetJeu {db : DB} {nom : String} (hn : nom ≠ "")
    (h : "" ∉ db.jeux.map (·.2)) :
    "" ∉ (addOrGetJeu nom db).2.jeux.map (·.2) := by
  unfold addOrGetJeu
  cases hf : findJeu nom db with
  | some g => simpa using h
  | none =>
      simp only [List.map_append, List.map_cons, List.map_nil, List.mem_append,
        List.mem_singleton]
      rintro (hmem | heq)
      · exact h hmem
      · exact hn heq.symm

theorem names_voteLoopStep {db : DB} (h : "" ∉ db.jeux.map (·.2))
    (u jeu : String) : "" ∉ (voteLoopStep u db jeu).jeux.map (·.2) := by
  simp only [voteLoopStep]
  split
  · exact h
  · next hne => rw [insertVote_jeux]; exact names_addOrGetJeu hne h

theorem names_foldl_voteLoopStep {db : DB} (h : "" ∉ db.jeux.map (·.2))
    (u : String) (l : List String) :
    "" ∉ (l.foldl (voteLoopStep u) db).jeux.map (·.2) := by
  induction l generalizing db with
  | nil => exact h
  | cons jeu rest ih => exact ih (names_voteLoopStep h u jeu)

/-! ### Claim theorems -/

/-- C1: after any sequence of addVote (`insertVote`), removeVote
(`deleteVoteForUser`) and replaceAllVotes (the POST /api/vote route, both
as shipped and with its missing bulk delete supplied from the spec)
operations starting from the fresh database, for every game id `j` the
vote count the statistics queries compute for `j` (`votesFor`, the
`COUNT(v.user_id)` of its group) equals the number of distinct users whose
membership set contains `j`, is never negative, and the global statistics
report is exactly the one built from the distinct-voter counts. -/
theorem voteCounter_matches_membership (ops : List Op) (j : Nat) :
    votesFor (runOps initDB ops) j = distinctVoters (runOps initDB ops) j ∧
    0 ≤ votesFor (runOps initDB ops) j ∧
    getGlobalStatistics (runOps initDB ops) =
      sortVotesDesc
        (((runOps initDB ops).jeux.map
            (fun g => (g.2, distinctVoters (runOps initDB ops) g.1))).filter
          (fun e => 0 < e.2)) := by
  have hnd : (runOps initDB ops).votes.Nodup :=
    votes_nodup_runOps ops List.nodup_nil
  refine ⟨votesFor_eq_distinctVoters hnd j, Nat.zero_le _, ?_⟩
  have hmap : (runOps initDB ops).jeux.map (statEntry (runOps initDB ops)) =
      (runOps initDB ops).jeux.map
        (fun g => (g.2, distinctVoters (runOps initDB ops) g.1)) :=
    List.map_congr_left (fun g _ => by
      unfold statEntry
      rw [votesFor_eq_distinctVoters hnd])
  unfold getGlobalStatistics
  rw [hmap]

/-- C2: the POST /api/vote replace-full-vote-set route as shipped.  A
missing or non-list body is rejected with 400, but every well-formed list
input is answered with a 500 server error and an unchanged database,
because app.js awaits `db.deleteVotesForUser(...)` while db.js exports no
function of that name — the success message and the clear-then-re-add net
effect described by the claim are unreachable. -/
theorem replaceVotes_always_serverError (u : String) (l : List String) (db : DB) :
    apiVote u (some l) db = (Outcome.serverError, db) ∧
    apiVote u none db = (Outcome.badRequest, db) :=
  ⟨rfl, rfl⟩

/-- C3 counterexample: in the reachable state `dbChess`, where user "u"
already voted for registered game 1, calling addVote("u", 1) twice leaves
the counter of game 1 at its old value — incremented by 0, not by 1 as the
claim states for every user and registered game. -/
theorem addVote_twice_cex :
    votesFor (insertVote "u" 1 (insertVote "u" 1 dbChess)) 1 ≠
      votesFor dbChess 1 + 1 := by
  decide

/-- C3 amended: if `(u, j)` is not yet a vote row, calling addVote twice
increments the counter of `j` by exactly 1 (not 2); and in every state the
second call is a no-op on the whole database. -/
theorem addVote_twice_increments_once (u : String) (j : Nat) (db : DB)
    (h : (u, j) ∉ db.votes) :
    votesFor (insertVote u j (insertVote u j db)) j = votesFor db j + 1 ∧
    insertVote u j (insertVote u j db) = insertVote u j db := by
  have h1 : insertVote u j db = { db with votes := db.votes ++ [(u, j)] } :=
    insertVote_of_not_mem h
  have hmem : (u, j) ∈ (insertVote u j db).votes := by
    rw [h1]
    simp
  have h2 : insertVote u j (insertVote u j db) = insertVote u j db :=
    insertVote_of_mem hmem
  refine ⟨?_, h2⟩
  rw [h2, h1, votesFor_append_same]

/-- Witness for the amended C3 at a concrete input. -/
theorem addVote_twice_increments_once_witness :
    votesFor (insertVote "u" 1 (insertVote "u" 1 initDB)) 1 =
        votesFor initDB 1 + 1 ∧
    insertVote "u" 1 (insertVote "u" 1 initDB) = insertVote "u" 1 initDB :=
  addVote_twice_increments_once "u" 1 initDB (by decide)

/-- C4 counterexample: the raw names "Chess" and "chess" normalise to the
same key; the two `resolveOrCreate` calls do return the same id, but the
stored display name is the normalised "chess", not the first raw
submission "Chess" — the registry never contains the row (1, "Chess"). -/
theorem resolveOrCreate_displayName_cex :
    (resolveOrCreate "chess" (resolveOrCreate "Chess" initDB).2).1 =
        (resolveOrCreate "Chess" initDB).1 ∧
    (resolveOrCreate "chess" (resolveOrCreate "Chess" initDB).2).2.jeux =
        [(1, "chess")] ∧
    (1, "Chess") ∉ (resolveOrCreate "chess" (resolveOrCreate "Chess" initDB).2).2.jeux := by
  decide

/-- C4 amended: for raw names `a` and `b` normalising to the same key that
is not yet registered, `resolveOrCreate a` followed by `resolveOrCreate b`
returns the same id, the second call changes nothing, and the stored
display name is the normalised key of `a` (lower-cased and trimmed), not
`a` verbatim. -/
theorem resolveOrCreate_same_key (a b : String) (db : DB)
    (hab : normalizeName a = normalizeName b)
    (hfresh : findJeu (normalizeName a) db = none) :
    (resolveOrCreate b (resolveOrCreate a db).2).1 = (resolveOrCreate a db).1 ∧
    (resolveOrCreate b (resolveOrCreate a db).2).2 = (resolveOrCreate a db).2 ∧
    ((resolveOrCreate a db).1, normalizeName a) ∈ (resolveOrCreate a db).2.jeux := by
  have hfind2 : findJeu (normalizeName b) (addOrGetJeu (normalizeName a) db).2 =
      some (db.nextId, normalizeName a) := by
    rw [← hab]
    exact findJeu_addOrGetJeu_fresh hfresh
  have h2 := addOrGetJeu_found hfind2
  unfold resolveOrCreate
  rw [h2]
  refine ⟨?_, rfl, ?_⟩
  · rw [addOrGetJeu_fresh hfresh]
  · rw [addOrGetJeu_fresh hfresh]
    simp

/-- Witness for the amended C4 at a concrete input: "Chess" and " CHESS "
share the normalised key "chess". -/
theorem resolveOrCreate_same_key_witness :
    (resolveOrCreate " CHESS " (resolveOrCreate "Chess" initDB).2).1 =
        (resolveOrCreate "Chess" initDB).1 ∧
    (resolveOrCreate " CHESS " (resolveOrCreate "Chess" initDB).2).2 =
        (resolveOrCreate "Chess" initDB).2 ∧
    ((resolveOrCreate "Chess" initDB).1, normalizeName "Chess") ∈
        (resolveOrCreate "Chess" initDB).2.jeux :=
  resolveOrCreate_same_key "Chess" " CHESS " initDB (by decide) (by decide)

/-- C5 counterexample: registered through the vote-submission path
(trim + toLowerCase, then `addOrGetJeu`), "Counter-Strike",
"counterstrike" and "Counter Strike" do NOT all resolve to one id. -/
theorem counterStrike_one_id_cex :
    ¬ ((resolveOrCreate "counterstrike"
          (resolveOrCreate "Counter-Strike" initDB).2).1 =
        (resolveOrCreate "Counter-Strike" initDB).1 ∧
       (resolveOrCreate "Counter Strike"
          (resolveOrCreate "counterstrike"
            (resolveOrCreate "Counter-Strike" initDB).2).2).1 =
        (resolveOrCreate "Counter-Strike" initDB).1) := by
  decide

/-- C5 amended: the normaliser the code actually applies on the vote path
is only trim + toLowerCase, so the three spellings keep three different
keys and the three registrations allocate three pairwise distinct ids. -/
theorem counterStrike_three_ids :
    (resolveOrCreate "Counter-Strike" initDB).1 ≠
        (resolveOrCreate "counterstrike"
          (resolveOrCreate "Counter-Strike" initDB).2).1 ∧
    (resolveOrCreate "counterstrike"
          (resolveOrCreate "Counter-Strike" initDB).2).1 ≠
        (resolveOrCreate "Counter Strike"
          (resolveOrCreate "counterstrike"
            (resolveOrCreate "Counter-Strike" initDB).2).2).1 ∧
    (resolveOrCreate "Counter-Strike" initDB).1 ≠
        (resolveOrCreate "Counter Strike"
          (resolveOrCreate "counterstrike"
            (resolveOrCreate "Counter-Strike" initDB).2).2).1 := by
  decide

/-- C6: `getGlobalStatistics` returns, up to the unspecified tie order of
`ORDER BY votes DESC`, exactly one entry per game whose count is at least
1 (zero-vote games are excluded), sorted by descending vote count, and
every returned count is at least 1.  The `nom`-uniqueness hypothesis is
the schema's `UNIQUE` constraint, under which grouping by name is grouping
by game. -/
theorem globalStatistics_policy (db : DB)
    (h : (db.jeux.map (·.2)).Nodup) :
    (getGlobalStatistics db).Perm
        ((db.jeux.map (statEntry db)).filter (fun e => 0 < e.2)) ∧
    (getGlobalStatistics db).Pairwise (fun a b => b.2 ≤ a.2) ∧
    (getGlobalStatistics db).all (fun e => decide (1 ≤ e.2)) = true := by
  refine ⟨sortVotesDesc_perm _, sortVotesDesc_sorted _, ?_⟩
  rw [List.all_eq_true]
  intro e he
  have he2 : e ∈ (db.jeux.map (statEntry db)).filter (fun e => 0 < e.2) :=
    (sortVotesDesc_perm _).mem_iff.1 he
  have := (List.mem_filter.1 he2).2
  simpa using this

/-- Witness for C6 at a concrete state: three games, counts 2, 1 and 0;
the report is [("a", 2), ("b", 1)]. -/
theorem globalStatistics_policy_witness :
    (getGlobalStatistics dbStats).Perm
        ((dbStats.jeux.map (statEntry dbStats)).filter (fun e => 0 < e.2)) ∧
    (getGlobalStatistics dbStats).Pairwise (fun a b => b.2 ≤ a.2) ∧
    (getGlobalStatistics dbStats).all (fun e => decide (1 ≤ e.2)) = true :=
  globalStatistics_policy dbStats (by decide)

/-- C7 counterexample: in the src/unnamed/part_001 variant of the
remove-one-game route, removing the never-registered name "ghost" answers
with the SUCCESS message (the handler has no 404 check; the `null` id
makes the DELETE match nothing), contradicting the claim that the
operation returns 404 and never reports success. -/
theorem supprimerJeu_variant_cex :
    apiSupprimerJeuVariant "u" (some "ghost") initDB = (Outcome.success, initDB) ∧
    Outcome.success ≠ Outcome.notFound := by
  decide

/-- C7 amended: for a non-empty name that does not resolve, the
src/app.js remove-one-game handler answers 404 and leaves the state
unchanged, never reporting success; the src/unnamed/part_001 variant
answers the success message instead, also leaving the state unchanged —
neither crashes. -/
theorem supprimerJeu_unregistered (u s : String) (db : DB)
    (hs : s ≠ "") (hun : getJeuIdByName s db = none) :
    apiSupprimerJeu u (some s) db = (Outcome.notFound, db) ∧
    apiSupprimerJeuVariant u (some s) db = (Outcome.success, db) := by
  constructor
  · simp only [apiSupprimerJeu, if_neg hs, hun]
  · simp only [apiSupprimerJeuVariant, if_neg hs, hun, deleteVoteForUserOpt]

/-- Witness for the amended C7 at a concrete input. -/
theorem supprimerJeu_unregistered_witness :
    apiSupprimerJeu "u" (some "ghost") initDB = (Outcome.notFound, initDB) ∧
    apiSupprimerJeuVariant "u" (some "ghost") initDB = (Outcome.success, initDB) :=
  supprimerJeu_unregistered "u" "ghost" initDB (by decide) (by decide)

/-- C8 counterexample: with an empty registry (no game 99 exists),
`insertVote` happily records a vote row for game 99 — SQLite's foreign
keys are declared but never enabled — and the DELETE /api/vote/:jeuId
route reports success; no NotFound-class failure anywhere. -/
theorem unknownGame_vote_cex :
    initDB.jeux = [] ∧
    (insertVote "u" 99 initDB).votes = [("u", 99)] ∧
    apiDeleteVote "u" 99 initDB = (Outcome.success, initDB) := by
  decide

/-- C8 amended: neither db.js vote operation validates the game id: for a
`j` absent from the registry, `insertVote` still appends the vote row
(foreign keys are not enforced), and the delete route still answers the
success message, leaving the state unchanged when no such vote exists. -/
theorem unknownGame_ops_not_rejected (u : String) (j : Nat) (db : DB)
    (hreg : ∀ g ∈ db.jeux, g.1 ≠ j) (hv : (u, j) ∉ db.votes) :
    (insertVote u j db).votes = db.votes ++ [(u, j)] ∧
    apiDeleteVote u j db = (Outcome.success, db) := by
  constructor
  · rw [insertVote_of_not_mem hv]
  · unfold apiDeleteVote
    have hfilter : db.votes.filter (fun p => !(p.1 == u && p.2 == j)) = db.votes := by
      rw [List.filter_eq_self]
      intro p hp
      obtain ⟨pu, pj⟩ := p
      by_cases h1 : pu = u
      · by_cases h2 : pj = j
        · subst h1
          subst h2
          exact absurd hp hv
        · simp [h2]
      · simp [h1]
    have hdel : deleteVoteForUser u j db = db := by
      unfold deleteVoteForUser
      rw [hfilter]
    rw [hdel]

/-- Witness for the amended C8 at a concrete input. -/
theorem unknownGame_ops_not_rejected_witness :
    (insertVote "u" 99 initDB).votes = initDB.votes ++ [("u", 99)] ∧
    apiDeleteVote "u" 99 initDB = (Outcome.success, initDB) :=
  unknownGame_ops_not_rejected "u" 99 initDB (by decide) (by decide)

/-- C9 counterexample: the whitespace-only name " " is JS-truthy, so the
add-one-game route does not reject it; it registers the game " " verbatim
and reports success, and the normalised key of that game's name is the
empty string. -/
theorem whitespaceName_cex :
    (apiAjouterJeu "u" (some " ") initDB).1 = Outcome.success ∧
    (apiAjouterJeu "u" (some " ") initDB).2.jeux = [(1, " ")] ∧
    normalizeName " " = "" := by
  decide

/-- C9 amended: the add-one-game route rejects only a missing or exactly
empty name with 400 (whitespace-only names pass and are stored verbatim,
so the registry can gain a game whose normalised key is empty); the
replace-vote-set route as shipped answers 500 before any lookup; and the
intended replace loop silently skips (rather than rejects) items whose
normalised key is empty, so that path never registers an empty-named
game. -/
theorem emptyName_policy (u : String) (l : List String) (db : DB)
    (h : "" ∉ db.jeux.map (·.2)) :
    apiAjouterJeu u none db = (Outcome.badRequest, db) ∧
    apiAjouterJeu u (some "") db = (Outcome.badRequest, db) ∧
    apiVote u (some l) db = (Outcome.serverError, db) ∧
    "" ∉ ((apiVoteIntended u (some l) db).2.jeux.map (·.2)) := by
  refine ⟨rfl, ?_, rfl, ?_⟩
  · simp [apiAjouterJeu]
  · show "" ∉ (l.foldl (voteLoopStep u) (deleteVotesForUser u db)).jeux.map (·.2)
    exact names_foldl_voteLoopStep (by rw [deleteVotesForUser_jeux]; exact h) u l

/-- Witness for the amended C9 at a concrete input. -/
theorem emptyName_policy_witness :
    apiAjouterJeu "u" none initDB = (Outcome.badRequest, initDB) ∧
    apiAjouterJeu "u" (some "") initDB = (Outcome.badRequest, initDB) ∧
    apiVote "u" (some [" ", "Chess"]) initDB = (Outcome.serverError, initDB) ∧
    "" ∉ ((apiVoteIntended "u" (some [" ", "Chess"]) initDB).2.jeux.map (·.2)) :=
  emptyName_policy "u" [" ", "Chess"] initDB (by decide)

/-- C10: the add-one-game route passes the raw name to `addOrGetJeu`
unchanged and `addOrGetJeu` compares names by exact string equality, so
two distinct unregistered raw names (for example names differing only in
letter case) submitted through the route create two games with distinct
ids, and a vote recorded under the second id leaves the first id's count
untouched. -/
theorem ajouterJeu_case_sensitive (u v a b : String) (db : DB)
    (ha : a ≠ "") (hb : b ≠ "") (hab : a ≠ b)
    (hfa : findJeu a db = none) (hfb : findJeu b db = none) :
    (db.nextId, a) ∈ (apiAjouterJeu v (some b) (apiAjouterJeu u (some a) db).2).2.jeux ∧
    (db.nextId + 1, b) ∈ (apiAjouterJeu v (some b) (apiAjouterJeu u (some a) db).2).2.jeux ∧
    db.nextId ≠ db.nextId + 1 ∧
    votesFor (apiAjouterJeu v (some b) (apiAjouterJeu u (some a) db).2).2 db.nextId =
      votesFor (apiAjouterJeu u (some a) db).2 db.nextId := by
  have e1 : (apiAjouterJeu u (some a) db).2 =
      insertVote u db.nextId
        { db with jeux := db.jeux ++ [(db.nextId, a)], nextId := db.nextId + 1 } := by
    simp only [apiAjouterJeu, if_neg ha, addOrGetJeu_fresh hfa]
  have hjeux1 : (apiAjouterJeu u (some a) db).2.jeux = db.jeux ++ [(db.nextId, a)] := by
    rw [e1, insertVote_jeux]
  have hnext1 : (apiAjouterJeu u (some a) db).2.nextId = db.nextId + 1 := by
    rw [e1, insertVote_nextId]
  have hfb1 : findJeu b (apiAjouterJeu u (some a) db).2 = none := by
    unfold findJeu
    rw [hjeux1, List.find?_append]
    have h1 : db.jeux.find? (fun g => g.2 == b) = none := hfb
    have h2 : (a == b) = false := beq_eq_false_iff_ne.mpr hab
    rw [h1]
    simp [List.find?, h2]
  have e2 : ∀ q : DB, findJeu b q = none → q.nextId = db.nextId + 1 →
      (apiAjouterJeu v (some b) q).2 =
        insertVote v (db.nextId + 1)
          { q with jeux := q.jeux ++ [(db.nextId + 1, b)],
                   nextId := db.nextId + 1 + 1 } := by
    intro q hq hqn
    simp only [apiAjouterJeu, if_neg hb, addOrGetJeu_fresh hq, hqn]
  have hjeux2 : (apiAjouterJeu v (some b) (apiAjouterJeu u (some a) db).2).2.jeux =
      (db.jeux ++ [(db.nextId, a)]) ++ [(db.nextId + 1, b)] := by
    rw [e2 _ hfb1 hnext1, insertVote_jeux]
    show (apiAjouterJeu u (some a) db).2.jeux ++ [(db.nextId + 1, b)] = _
    rw [hjeux1]
  refine ⟨?_, ?_, (Nat.succ_ne_self db.nextId).symm, ?_⟩
  · rw [hjeux2]
    simp
  · rw [hjeux2]
    simp
  · rw [e2 _ hfb1 hnext1, votesFor_insertVote_other (Nat.succ_ne_self db.nextId)]
    rfl

/-- Witness for C10 at a concrete input: "Chess" and "chess" submitted
through add-one-game create the two distinct games (1, "Chess") and
(2, "chess") with separate counters. -/
theorem ajouterJeu_case_sensitive_witness :
    (initDB.nextId, "Chess") ∈
        (apiAjouterJeu "u" (some "chess") (apiAjouterJeu "u" (some "Chess") initDB).2).2.jeux ∧
    (initDB.nextId + 1, "chess") ∈
        (apiAjouterJeu "u" (some "chess") (apiAjouterJeu "u" (some "Chess") initDB).2).2.jeux ∧
    initDB.nextId ≠ initDB.nextId + 1 ∧
    votesFor (apiAjouterJeu "u" (some "chess") (apiAjouterJeu "u" (some "Chess") initDB).2).2
        initDB.nextId =
      votesFor (apiAjouterJeu "u" (some "Chess") initDB).2 initDB.nextId :=
  ajouterJeu_case_sensitive "u" "u" "Chess" "chess" initDB
    (by decide) (by decide) (by decide) (by decide) (by decide)

end Sondage
